import Mathlib

/-!
Shallow embedding of the grail-scanner core (src/services/gemini.ts and the
forensic tool module) in Lean 4, together with theorems settling the frozen
claims about it.

Conventions of the embedding:
* JavaScript numbers are modelled as `ℕ`, `ℤ` or `ℚ` as appropriate; every
  place the source calls `Math.round` / `Math.floor` is made explicit through
  `jsRound` / floor on `ℚ`.
* JavaScript strings are Lean `String`s; the string-scanning helpers work on
  `List Char` (`String.data`).
* `Record<string, string>` argument maps are association lists
  (`List (String × String)`); absent keys model `undefined`.
* `Math.random()` draws are modelled by an explicit stream `rng : ℕ → ℚ`
  passed to the code that consumes them.
* The hosted model is an oracle: a run of the orchestrator is determined by
  the trace of model responses, modelled as a function from message index to
  response.
-/

namespace GrailScanner

/-! ### JavaScript primitives -/

/-- JS `Math.round`: round half toward positive infinity. -/
def jsRound (q : ℚ) : ℤ := ⌊q + 1/2⌋

/-- The JS `\s` / `trim` whitespace class (WhiteSpace ∪ LineTerminator). -/
def jsWhitespace (c : Char) : Bool :=
  c == ' ' || c == '\t' || c == '\n' || c == '\r' ||
  c.toNat == 11 || c.toNat == 12 || c.toNat == 0xa0 || c.toNat == 0x1680 ||
  (0x2000 ≤ c.toNat && c.toNat ≤ 0x200a) || c.toNat == 0x2028 ||
  c.toNat == 0x2029 || c.toNat == 0x202f || c.toNat == 0x205f ||
  c.toNat == 0x3000 || c.toNat == 0xfeff

/-- ASCII lower-casing of one character (the source only ever compares
ASCII table entries, for which JS `toLowerCase` agrees with this). -/
def asciiLower (c : Char) : Char :=
  if 'A' ≤ c && c ≤ 'Z' then Char.ofNat (c.toNat + 32) else c

def lowerChars (l : List Char) : List Char := l.map asciiLower

/-- JS `toLowerCase` on a string (ASCII model). -/
def strLower (s : String) : String := String.mk (lowerChars s.data)

def isDigitChar (c : Char) : Bool := '0' ≤ c && c ≤ '9'

/-- JS `replace(/[^0-9]/g, '')`. -/
def digitsOf (l : List Char) : List Char := l.filter isDigitChar

/-- Numeric value of a string of decimal digits. -/
def parseDigits (l : List Char) : ℕ :=
  l.foldl (fun a c => a * 10 + (c.toNat - 48)) 0

/-- JS `parseInt` on an all-digit string: `NaN` (modelled `none`) iff empty. -/
def jsParseIntOpt (l : List Char) : Option ℕ :=
  if l.isEmpty then none else some (parseDigits l)

/-- Does `hay` start with `needle`? -/
def startsSub : List Char → List Char → Bool
  | _, [] => true
  | [], _ :: _ => false
  | h :: hs, n :: ns => h == n && startsSub hs ns

/-- JS `String.prototype.includes`. -/
def containsSub : List Char → List Char → Bool
  | [], needle => needle.isEmpty
  | h :: t, needle => startsSub (h :: t) needle || containsSub t needle

def jsTrimChars (l : List Char) : List Char :=
  ((l.dropWhile jsWhitespace).reverse.dropWhile jsWhitespace).reverse

/-- JS `String.prototype.trim`. -/
def jsTrimStr (s : String) : String := String.mk (jsTrimChars s.data)

/-- JS `split(sep)` for a one-character separator. -/
def splitOnChar (sep : Char) (l : List Char) : List (List Char) :=
  l.foldr (fun c acc =>
    if c = sep then [] :: acc
    else
      match acc with
      | g :: rest => (c :: g) :: rest
      | [] => [[c]]) [[]]

/-- JS `s || d` for strings: the empty string is falsy. -/
def jsOrString (v : String) (d : String) : String := if v = "" then d else v

/-- JS `n || null` for a nullable number: both `null` and `0` are falsy. -/
def jsOrIntNull (o : Option ℤ) : Option ℤ :=
  match o with
  | some y => if y = 0 then none else some y
  | none => none

/-- Rendering of a possibly-absent string inside a JS template literal
(`undefined` renders as the string "undefined"). -/
def jsTemplate (o : Option String) : String := o.getD "undefined"

/-! ### Tool argument maps -/

/-- `Record<string, string>` argument maps, as association lists. -/
abbrev ToolArgs := List (String × String)

def getArg (args : ToolArgs) (key : String) : Option String :=
  (args.find? (fun p => p.1 == key)).map (·.2)

/-- JS `args.key || ''` (`undefined` and `''` both yield `''`). -/
def argOrEmpty (args : ToolArgs) (key : String) : String :=
  (getArg args key).getD ""

/-! ### Result record types (types.ts) -/

inductive ConfidenceLevel
  | very_high
  | high
  | moderate
  | low
  | uncertain
  deriving DecidableEq

inductive RNStatus
  | active
  | inactive
  | not_found
  deriving DecidableEq

inductive MarketTrend
  | rising
  | stable
  | declining
  deriving DecidableEq

inductive DemandLevel
  | very_high
  | high
  | moderate
  | low
  deriving DecidableEq

structure BrandEra where
  brand : String
  era : String
  yearRange : ℤ × ℤ
  confidence : ℚ
  markers : List String
  deriving DecidableEq

structure RNLookupResult where
  rnNumber : String
  companyName : String
  registrationYear : Option ℤ
  calculatedYear : Option ℤ
  status : RNStatus
  formula : String
  deriving DecidableEq

structure BrandPatternResult where
  brand : String
  era : String
  authenticityScore : ℤ
  matchedPatterns : List String
  redFlags : List String
  details : String
  deriving DecidableEq

structure DateForensicsResult where
  estimatedEra : String
  yearRange : ℤ × ℤ
  confidence : ℚ
  evidence : List String
  constructionDetails : List String
  materialAnalysis : String
  deriving DecidableEq

structure EstimatedValue where
  low : ℤ
  mid : ℤ
  high : ℤ
  currency : String
  deriving DecidableEq

structure ComparableSale where
  title : String
  price : ℤ
  platform : String
  date : String
  condition : String
  deriving DecidableEq

structure MarketSearchResult where
  estimatedValue : EstimatedValue
  comparableSales : List ComparableSale
  marketTrend : MarketTrend
  demandLevel : DemandLevel
  deriving DecidableEq

structure AuthenticationResult where
  isAuthentic : Bool
  confidence : ℕ
  confidenceLevel : ConfidenceLevel
  category : String
  brandEra : BrandEra
  rnLookup : Option RNLookupResult
  brandPattern : BrandPatternResult
  dateForensics : DateForensicsResult
  marketData : MarketSearchResult
  reasoning : String
  redFlags : List String
  verifiedMarkers : List String
  thinkingOutput : String
  timestamp : ℤ
  processingTime : ℤ
  deriving DecidableEq

/-! ### Tool 1: RN/WPL lookup -/

/-- RN Dating Formula: `(RN - 13670) / 2635 + 1959`, `null` below 13670. -/
def calculateRNYear (rnNumber : ℕ) : Option ℤ :=
  if rnNumber < 13670 then none
  else some (jsRound (((rnNumber : ℚ) - 13670) / 2635 + 1959))

structure RNEntry where
  company : String
  year : Option ℤ
  deriving DecidableEq

def RN_DATABASE : List (String × RNEntry) :=
  [ ("42850", ⟨"Nike Inc.", some 1970⟩),
    ("55531", ⟨"Gap Inc.", some 1975⟩),
    ("73277", ⟨"Levi Strauss & Co.", some 1982⟩),
    ("73909", ⟨"Ralph Lauren Corporation", some 1982⟩),
    ("77388", ⟨"Tommy Hilfiger", some 1984⟩),
    ("91518", ⟨"The North Face", some 1989⟩),
    ("101243", ⟨"Patagonia Inc.", some 1992⟩),
    ("114798", ⟨"Carhartt Inc.", some 1997⟩),
    ("56002", ⟨"Levi\x27s (alternate)", some 1975⟩),
    ("41381", ⟨"Pendleton Woolen Mills", some 1969⟩),
    ("15763", ⟨"L.L.Bean Inc.", some 1960⟩),
    ("26094", ⟨"Fruit of the Loom", some 1964⟩) ]

def rnLookup (args : ToolArgs) : RNLookupResult :=
  let rawNumber := argOrEmpty args "rn_number"
  let cleaned := String.mk (digitsOf rawNumber.data)
  match jsParseIntOpt (digitsOf rawNumber.data) with
  | none =>
    { rnNumber := rawNumber
      companyName := "Invalid RN number"
      registrationYear := none
      calculatedYear := none
      status := .not_found
      formula := "N/A" }
  | some rnNum =>
    let knownEntry := (RN_DATABASE.find? (fun p => p.1 == cleaned)).map (·.2)
    let calculatedYear := calculateRNYear rnNum
    -- JS `${calculatedYear || 'N/A'}`: null and 0 both render as N/A
    let calcStr :=
      match calculatedYear with
      | some y => if y = 0 then "N/A" else toString y
      | none => "N/A"
    { rnNumber := "RN " ++ cleaned
      companyName :=
        match knownEntry with
        | some e => jsOrString e.company ("Unknown (RN " ++ cleaned ++ ")")
        | none => "Unknown (RN " ++ cleaned ++ ")"
      registrationYear :=
        jsOrIntNull (match knownEntry with | some e => e.year | none => none)
      calculatedYear := calculatedYear
      status :=
        match knownEntry with
        | some _ => .active
        | none =>
          match calculatedYear with
          | some y => if y = 0 then .not_found else .active
          | none => .not_found
      formula :=
        "(" ++ toString rnNum ++ " - 13670) / 2635 + 1959 = " ++ calcStr }

/-! ### Tool 2: brand pattern verification -/

structure EraData where
  patterns : List String
  redFlags : List String
  details : String
  deriving DecidableEq

structure BrandDB where
  eras : List (String × EraData)
  deriving DecidableEq

def nikePatternDB : BrandDB :=
  ⟨[
      ("1970s", ⟨
        ["Block letter NIKE logo", "Made in Japan/Taiwan", "Waffle outsole", "Simple swoosh"],
        ["Modern swoosh design", "Made in China/Vietnam", "Moisture-wicking materials"],
        "Early Nike featured block letters and Japanese manufacturing. The swoosh was thinner and simpler."⟩),
      ("1980s", ⟨
        ["Grey tag", "Silver/grey label", "Made in Taiwan/Korea", "Block font", "Pin tag on collar"],
        ["White label", "Modern barcode format", "Dri-FIT branding"],
        "The Grey Tag era (1980-87) is highly collectible. Look for silver/grey woven labels."⟩),
      ("1990s", ⟨
        ["White tag", "White label", "Made in USA possible", "Embroidered swoosh", "Mini swoosh"],
        ["Grey tag (too early)", "Modern hang tag design", "Flex/React branding"],
        "White Tag era (1988-1998). Highly sought after. Mini swoosh and center swoosh are valuable."⟩),
      ("2000s", ⟨
        ["Size tag on inside", "Modern hang tag", "Tech fabric labels", "Barcode tag"],
        ["Missing care labels", "Incorrect font spacing", "Poor swoosh proportions"],
        "Modern era Nike. Look for consistent label formatting and proper material composition tags."⟩)]⟩

def levisPatternDB : BrandDB :=
  ⟨[
      ("1960s", ⟨
        ["Big E (LEVI\x27S)", "Single-stitch hems", "Redline selvedge", "Paper patch"],
        ["Lowercase e", "Chain stitch hems", "Modern rivets"],
        "Big E era uses capital E in LEVI\x27S. Extremely valuable. Check for selvedge denim."⟩),
      ("1970s", ⟨
        ["Small e (Levi\x27s)", "Orange tab possible", "Care tag with numbers", "Chain stitch hems"],
        ["Big E (too early)", "Modern leather patch", "Stretch denim"],
        "Transition from Big E to small e happened ~1971. Orange tab indicates non-501 line."⟩),
      ("1980s", ⟨
        ["Red tab small e", "Leather patch", "Made in USA", "Cone Mills denim possible"],
        ["Paper patch", "Non-US manufacture", "Modern button styles"],
        "Made in USA era. Look for quality denim weight and Cone Mills fabric."⟩),
      ("1990s", ⟨
        ["Red tab small e", "Various global manufacture", "Silver tab line", "Baggy/loose cuts"],
        ["Incorrect tab placement", "Poor rivet quality", "Wrong pocket arc pattern"],
        "Diverse manufacturing era. Silver Tab line is collectible. Check pocket arcs carefully."⟩)]⟩

def ralphLaurenPatternDB : BrandDB :=
  ⟨[
      ("1980s", ⟨
        ["Polo player logo", "Made in USA", "Single-needle construction", "Button-down collar"],
        ["Modern tag design", "Made in Sri Lanka/China", "Missing country of origin"],
        "Golden era Ralph Lauren. Made in USA with premium construction. Look for single-needle stitching."⟩),
      ("1990s", ⟨
        ["Polo Sport line", "Hi-Tech collection", "Snow Beach", "Stadium 1992"],
        ["Incorrect flag design", "Wrong font for era", "Poor embroidery quality"],
        "Highly collectible era. Polo Sport, Snow Beach, and Stadium 1992 command premium prices."⟩)]⟩

def BRAND_PATTERNS : List (String × BrandDB) :=
  [("nike", nikePatternDB), ("levis", levisPatternDB), ("ralph lauren", ralphLaurenPatternDB)]

/-- `(args.brand || '').toLowerCase().trim()`. -/
def bpNormalizeBrand (args : ToolArgs) : String :=
  jsTrimStr (strLower (argOrEmpty args "brand"))

/-- `(args.markers || '').split(',').map(m => m.trim()).filter(Boolean)`. -/
def bpObservedMarkers (args : ToolArgs) : List String :=
  ((splitOnChar ',' (argOrEmpty args "markers").data).map
    (fun l => String.mk (jsTrimChars l))).filter (fun s => s ≠ "")

def bpLookup (brandKey : String) : Option BrandDB :=
  (BRAND_PATTERNS.find? (fun p => p.1 == brandKey)).map (·.2)

/-- JS `k.replace('s', '')`: remove the first occurrence only. -/
def removeFirstChar (c : Char) : List Char → List Char
  | [] => []
  | h :: t => if h = c then t else h :: removeFirstChar c t

/-- Era selection: first era key whose decade digits occur in the request era
string (`era.includes(k.replace('s', ''))`), else the last declared era key
for the brand (`eraKeys[eraKeys.length - 1]`). -/
def bpEraKey (bd : BrandDB) (era : String) : String :=
  match (bd.eras.map (·.1)).find? (fun k => containsSub era.data (removeFirstChar 's' k.data)) with
  | some k => k
  | none => (bd.eras.map (·.1)).getLast?.getD ""

/-- `brandData.eras[matchedEra]` (the key always comes from the era list, so
the default record is never reached on the tables above). -/
def bpEraData (bd : BrandDB) (era : String) : EraData :=
  ((bd.eras.find? (fun p => p.1 == bpEraKey bd era)).map (·.2)).getD ⟨[], [], ""⟩

/-- Pattern matching: an observed marker (lower-cased) must contain the first
ten characters of the lower-cased expected pattern. -/
def bpMatchesOf (expected : List String) (observed : List String) : List String :=
  expected.filter (fun pat =>
    observed.any (fun m => containsSub (lowerChars m.data) ((lowerChars pat.data).take 10)))

def brandPatterns (args : ToolArgs) : BrandPatternResult :=
  let brand := bpNormalizeBrand args
  let era := jsTrimStr (argOrEmpty args "era")
  let observedMarkers := bpObservedMarkers args
  match bpLookup brand with
  | none =>
    { brand := jsOrString (argOrEmpty args "brand") "Unknown"
      era := era
      authenticityScore := 50
      matchedPatterns := []
      redFlags := ["Brand not in database - manual verification required"]
      details := "Brand \"" ++ jsTemplate (getArg args "brand") ++
        "\" not found in forensic database. Manual authentication recommended." }
  | some brandData =>
    let matchedEra := bpEraKey brandData era
    let eraData := bpEraData brandData era
    let matchedPatterns := bpMatchesOf eraData.patterns observedMarkers
    let redFlags := bpMatchesOf eraData.redFlags observedMarkers
    let patternScore : ℚ :=
      if eraData.patterns.length > 0 then
        ((matchedPatterns.length : ℚ) / eraData.patterns.length) * 100
      else 50
    let redFlagPenalty : ℚ := (redFlags.length : ℚ) * 15
    let authenticityScore : ℤ := max 0 (min 100 (jsRound (patternScore - redFlagPenalty)))
    { brand := jsOrString (argOrEmpty args "brand") "Unknown"
      era := matchedEra
      authenticityScore := authenticityScore
      matchedPatterns := if matchedPatterns.length > 0 then matchedPatterns else eraData.patterns
      redFlags := if redFlags.length > 0 then redFlags else []
      details := eraData.details }

/-! ### Tool 3: date forensics -/

structure ConstructionMarker where
  feature : String
  eraRange : ℤ × ℤ
  confidence : ℚ
  deriving DecidableEq

def CONSTRUCTION_MARKERS : List ConstructionMarker :=
  [ ⟨"single-needle", (1950, 1990), 7/10⟩,
    ⟨"chain stitch", (1950, 1985), 8/10⟩,
    ⟨"selvedge", (1920, 1985), 85/100⟩,
    ⟨"union label", (1955, 1995), 9/10⟩,
    ⟨"made in usa", (1940, 2000), 6/10⟩,
    ⟨"made in japan", (1960, 1990), 7/10⟩,
    ⟨"made in china", (1985, 2026), 5/10⟩,
    ⟨"ykk zipper", (1960, 2026), 4/10⟩,
    ⟨"talon zipper", (1930, 1990), 85/100⟩,
    ⟨"coats & clark", (1950, 2010), 6/10⟩,
    ⟨"bar tack", (1960, 2026), 3/10⟩,
    ⟨"rolled hem", (1940, 1980), 75/100⟩,
    ⟨"triple stitch", (1970, 2026), 4/10⟩,
    ⟨"polyester", (1960, 2026), 3/10⟩,
    ⟨"nylon", (1940, 2026), 2/10⟩,
    ⟨"rayon", (1920, 2026), 3/10⟩,
    ⟨"care label", (1971, 2026), 8/10⟩,
    ⟨"no care label", (1920, 1971), 9/10⟩ ]

/-- `` `${details} ${materials}` `` with both parts lower-cased. -/
def dfCombined (args : ToolArgs) : List Char :=
  lowerChars (argOrEmpty args "construction_details").data ++ [' '] ++
    lowerChars (argOrEmpty args "materials").data

def matchedConstructionMarkers (args : ToolArgs) : List ConstructionMarker :=
  CONSTRUCTION_MARKERS.filter (fun m => containsSub (dfCombined args) m.feature.data)

/-- `Math.max` over a non-empty integer list (0 is never used: callers pass
non-empty lists). -/
def intListMax : List ℤ → ℤ
  | [] => 0
  | h :: t => t.foldl max h

def intListMin : List ℤ → ℤ
  | [] => 0
  | h :: t => t.foldl min h

def dateForensics (args : ToolArgs) : DateForensicsResult :=
  let details := String.mk (lowerChars (argOrEmpty args "construction_details").data)
  let materials := String.mk (lowerChars (argOrEmpty args "materials").data)
  let matchedMarkers := matchedConstructionMarkers args
  if matchedMarkers.isEmpty then
    { estimatedEra := "Undetermined"
      yearRange := (1960, 2020)
      confidence := 3/10
      evidence := ["No specific construction markers identified"]
      constructionDetails := [details]
      materialAnalysis := jsOrString materials "Not specified" }
  else
    let totalWeight : ℚ := (matchedMarkers.map (·.confidence)).sum
    let weightedStart : ℚ := (matchedMarkers.map (fun m => (m.eraRange.1 : ℚ) * m.confidence)).sum
    let weightedEnd : ℚ := (matchedMarkers.map (fun m => (m.eraRange.2 : ℚ) * m.confidence)).sum
    let avgStart : ℤ := jsRound (weightedStart / totalWeight)
    let avgEnd : ℤ := jsRound (weightedEnd / totalWeight)
    let overlapStart : ℤ := intListMax (matchedMarkers.map (·.eraRange.1))
    let overlapEnd : ℤ := intListMin (matchedMarkers.map (·.eraRange.2))
    let finalStart : ℤ := if overlapStart ≤ overlapEnd then overlapStart else avgStart
    let finalEnd : ℤ := if overlapStart ≤ overlapEnd then overlapEnd else avgEnd
    let avgConfidence : ℚ := totalWeight / (matchedMarkers.length : ℚ)
    let decade : ℤ := ⌊(finalStart : ℚ) / 10⌋ * 10
    let endDecade : ℤ := ⌊(finalEnd : ℚ) / 10⌋ * 10
    { estimatedEra := toString decade ++ "s - " ++ toString endDecade ++ "s"
      yearRange := (finalStart, finalEnd)
      confidence := min (95/100 : ℚ) (avgConfidence + (matchedMarkers.length : ℚ) * (5/100))
      evidence := matchedMarkers.map (fun m =>
        m.feature ++ ": " ++ toString m.eraRange.1 ++ "-" ++ toString m.eraRange.2 ++
          " (" ++ toString (jsRound (m.confidence * 100)) ++ "% confidence)")
      constructionDetails :=
        ((splitOnChar ',' details.data).map (fun l => String.mk (jsTrimChars l))).filter
          (fun s => s ≠ "")
      materialAnalysis := jsOrString materials "Not specified" }

/-! ### Tool 4: market search -/

structure PriceBand where
  low : ℕ
  high : ℕ
  deriving DecidableEq

def BASE_VALUES : List (String × PriceBand) :=
  [ ("nike", ⟨80, 450⟩),
    ("levis", ⟨60, 800⟩),
    ("ralph lauren", ⟨50, 600⟩),
    ("the north face", ⟨70, 350⟩),
    ("patagonia", ⟨60, 300⟩),
    ("carhartt", ⟨40, 250⟩),
    ("champion", ⟨40, 200⟩),
    ("stussy", ⟨80, 500⟩),
    ("supreme", ⟨100, 2000⟩),
    ("default", ⟨30, 200⟩) ]

/-- `baseValues[brand] || baseValues.default`. -/
def msBaseBand (brand : String) : PriceBand :=
  ((BASE_VALUES.find? (fun p => p.1 == brand)).map (·.2)).getD ⟨30, 200⟩

/-- Era desirability multiplier. -/
def msEraMultiplier (era : String) : ℚ :=
  if containsSub era.data "1970".data || containsSub era.data "1980".data then 9/5
  else if containsSub era.data "1990".data then 7/5
  else if containsSub era.data "2000".data then 4/5
  else 1

/-- `marketSearch`; `rng k` is the value of the (k+1)-th `Math.random()`
call made inside this invocation. -/
def marketSearch (args : ToolArgs) (rng : ℕ → ℚ) : MarketSearchResult :=
  let description := argOrEmpty args "item_description"
  let brand := strLower (argOrEmpty args "brand")
  let era := argOrEmpty args "era"
  let brandValues := msBaseBand brand
  let eraMultiplier := msEraMultiplier era
  let low : ℤ := jsRound ((brandValues.low : ℚ) * eraMultiplier)
  let high : ℤ := jsRound ((brandValues.high : ℚ) * eraMultiplier)
  let mid : ℤ := jsRound (((low : ℚ) + (high : ℚ)) / 2)
  { estimatedValue := ⟨low, mid, high, "USD"⟩
    comparableSales :=
      [ ⟨description ++ " - Similar condition", mid + jsRound (rng 0 * 50 - 25),
          "eBay", "2026-01-15", "Good"⟩,
        ⟨description ++ " - Excellent condition", high - jsRound (rng 1 * 50),
          "Grailed", "2026-01-10", "Excellent"⟩,
        ⟨description ++ " - Fair condition", low + jsRound (rng 2 * 30),
          "Depop", "2025-12-28", "Fair"⟩ ]
    marketTrend := if eraMultiplier > 6/5 then .rising else .stable
    demandLevel :=
      if eraMultiplier > 3/2 then .very_high
      else if eraMultiplier > 1 then .high
      else .moderate }

/-! ### Tool router -/

inductive ToolResult
  | rn (r : RNLookupResult)
  | brand (r : BrandPatternResult)
  | dating (r : DateForensicsResult)
  | market (r : MarketSearchResult)
  deriving DecidableEq

/-- `executeToolCall`: dispatch a tool name to the matching function, failing
on unknown names. `rng` models the `Math.random()` draws available to the
dispatched call. -/
def executeToolCall (toolName : String) (args : ToolArgs) (rng : ℕ → ℚ) :
    Except String ToolResult :=
  if toolName = "rn_lookup" then .ok (.rn (rnLookup args))
  else if toolName = "brand_patterns" then .ok (.brand (brandPatterns args))
  else if toolName = "date_forensics" then .ok (.dating (dateForensics args))
  else if toolName = "market_search" then .ok (.market (marketSearch args rng))
  else .error ("Unknown tool: " ++ toolName)

def forensicTools : List String :=
  ["rn_lookup", "brand_patterns", "date_forensics", "market_search"]

/-! ### A small backtracking regex engine with JS semantics

The response parser uses JS regex literals; they are embedded as values of
`Regex` below and executed by a fuelled backtracking matcher implementing
the ECMAScript semantics the source relies on: leftmost match, ordered
alternation, greedy and lazy quantifiers with backtracking, capture groups,
`\b` word boundaries and the `$` end anchor (no `m` flag anywhere). -/

inductive Regex where
  | eps
  | cls (p : Char → Bool)
  | cat (a b : Regex)
  | alt (a b : Regex)
  | rep (r : Regex) (lo : ℕ) (hi : Option ℕ) (lz : Bool)
  | group (idx : ℕ) (r : Regex)
  | wordB
  | eos

/-- Capture records `(group index, start, stop)`, most recent first. -/
abbrev Caps := List (ℕ × ℕ × ℕ)

def isWordChar (c : Char) : Bool :=
  ('a' ≤ c && c ≤ 'z') || ('A' ≤ c && c ≤ 'Z') || isDigitChar c || c == '_'

def wordCharAt (s : List Char) (i : ℕ) : Bool :=
  match s.drop i with
  | [] => false
  | c :: _ => isWordChar c

def wordBoundaryAt (s : List Char) (pos : ℕ) : Bool :=
  (if pos = 0 then false else wordCharAt s (pos - 1)) != wordCharAt s pos

/-- Backtracking matcher in continuation-passing style. The fuel bounds the
depth of nested attempts; iterations of a `lo = 0` quantifier must consume
input (the ECMAScript empty-iteration rule), so linear fuel suffices for the
patterns in this file. -/
def reMatch (s : List Char) :
    ℕ → Regex → ℕ → Caps → (ℕ → Caps → Option (ℕ × Caps)) → Option (ℕ × Caps)
  | 0, _, _, _, _ => none
  | fuel + 1, r, pos, caps, k =>
    match r with
    | .eps => k pos caps
    | .cls p =>
      match s.drop pos with
      | [] => none
      | c :: _ => if p c then k (pos + 1) caps else none
    | .cat a b => reMatch s fuel a pos caps (fun p' c' => reMatch s fuel b p' c' k)
    | .alt a b =>
      match reMatch s fuel a pos caps k with
      | some res => some res
      | none => reMatch s fuel b pos caps k
    | .group i r' => reMatch s fuel r' pos caps (fun p' c' => k p' ((i, pos, p') :: c'))
    | .wordB => if wordBoundaryAt s pos then k pos caps else none
    | .eos => if pos = s.length then k pos caps else none
    | .rep r' lo hi lz =>
      match lo with
      | m + 1 =>
        reMatch s fuel r' pos caps (fun p' c' =>
          reMatch s fuel (.rep r' m (hi.map (· - 1)) lz) p' c' k)
      | 0 =>
        match hi with
        | some 0 => k pos caps
        | _ =>
          if lz then
            match k pos caps with
            | some res => some res
            | none =>
              reMatch s fuel r' pos caps (fun p' c' =>
                if p' = pos then none
                else reMatch s fuel (.rep r' 0 (hi.map (· - 1)) lz) p' c' k)
          else
            match reMatch s fuel r' pos caps (fun p' c' =>
                if p' = pos then none
                else reMatch s fuel (.rep r' 0 (hi.map (· - 1)) lz) p' c' k) with
            | some res => some res
            | none => k pos caps

def reFuel (s : List Char) : ℕ := 32 * s.length + 512

/-- Attempt a match anchored at position `i`. -/
def reTryAt (re : Regex) (s : List Char) (i : ℕ) : Option (ℕ × Caps) :=
  reMatch s (reFuel s) re i [] (fun p c => some (p, c))

/-- Leftmost search starting at index `i` (first component of the fuel is the
number of start positions left to try). -/
def reSearchFrom (re : Regex) (s : List Char) : ℕ → ℕ → Option (ℕ × ℕ × Caps)
  | 0, _ => none
  | fuel + 1, i =>
    match reTryAt re s i with
    | some (e, caps) => some (i, e, caps)
    | none => if i < s.length then reSearchFrom re s fuel (i + 1) else none

/-- JS `String.prototype.match` without the `g` flag: leftmost match. -/
def reSearch (re : Regex) (s : List Char) : Option (ℕ × ℕ × Caps) :=
  reSearchFrom re s (s.length + 1) 0

def capGet (caps : Caps) (s : List Char) (i : ℕ) : Option (List Char) :=
  (caps.find? (fun t => t.1 == i)).map (fun t => (s.drop t.2.1).take (t.2.2 - t.2.1))

/-- Group 1 of the leftmost match, if any. -/
def reGroup1 (re : Regex) (s : List Char) : Option (List Char) :=
  match reSearch re s with
  | some (_, _, caps) => capGet caps s 1
  | none => none

/-- Substring of the leftmost full match (`match[0]`), if any. -/
def reFull (re : Regex) (s : List Char) : Option (List Char) :=
  (reSearch re s).map (fun r => (s.drop r.1).take (r.2.1 - r.1))

/-- JS `String.prototype.match` with the `g` flag: all non-overlapping
matches, scanning left to right (an empty match advances by one). -/
def reMatchesGFrom (re : Regex) (s : List Char) : ℕ → ℕ → List (ℕ × ℕ × Caps)
  | 0, _ => []
  | fuel + 1, i =>
    match reSearchFrom re s (s.length + 1 - i) i with
    | none => []
    | some (st, e, caps) =>
      (st, e, caps) :: reMatchesGFrom re s fuel (if e = st then st + 1 else e)

def reMatchesG (re : Regex) (s : List Char) : List (ℕ × ℕ × Caps) :=
  reMatchesGFrom re s (s.length + 1) 0

/-! ### The source's regex literals as `Regex` values -/

/-- A pattern character under the `i` flag. -/
def ciClass (c : Char) : Regex := .cls (fun x => asciiLower x == asciiLower c)

def exactClass (c : Char) : Regex := .cls (fun x => x == c)

def litCI (w : String) : Regex := w.data.foldr (fun c acc => .cat (ciClass c) acc) .eps

def catList (l : List Regex) : Regex := l.foldr .cat .eps

def altList : List Regex → Regex
  | [] => .eps
  | [r] => r
  | r :: rest => .alt r (altList rest)

def dCls : Regex := .cls isDigitChar

def sCls : Regex := .cls jsWhitespace

/-- The class `[:\s]`. -/
def colonSpaceCls : Regex := .cls (fun c => c == ':' || jsWhitespace c)

/-- The class `[-–]`. -/
def dashCls : Regex := .cls (fun c => c == '-' || c == '–')

/-- The class `[-•*]`. -/
def bulletCls : Regex := .cls (fun c => c == '-' || c == '•' || c == '*')

/-- JS `.` without the `s` flag: any char but a line terminator. -/
def dotCls : Regex :=
  .cls (fun c => !(c == '\n' || c == '\r' || c.toNat == 0x2028 || c.toNat == 0x2029))

/-- The class `[^]`: any character. -/
def anyCls : Regex := .cls (fun _ => true)

/-- The class `[A-Za-z\s&]`. -/
def brandCls : Regex :=
  .cls (fun c => ('A' ≤ c && c ≤ 'Z') || ('a' ≤ c && c ≤ 'z') || jsWhitespace c || c == '&')

/-- `[0-9]{4}` / `\d{4}`. -/
def yyyy : Regex := .rep dCls 4 (some 4) false

/-- `s?` under the `i` flag. -/
def sOpt : Regex := .rep (ciClass 's') 0 (some 1) false

/-- `/confidence[:\s]*(\d{1,3})%/i` -/
def confRe1 : Regex :=
  catList [litCI "confidence", .rep colonSpaceCls 0 none false,
    .group 1 (.rep dCls 1 (some 3) false), exactClass '%']

/-- `/(\d{1,3})%\s*confident/i` -/
def confRe2 : Regex :=
  catList [.group 1 (.rep dCls 1 (some 3) false), exactClass '%',
    .rep sCls 0 none false, litCI "confident"]

/-- `/score[:\s]*(\d{1,3})/i` -/
def confRe3 : Regex :=
  catList [litCI "score", .rep colonSpaceCls 0 none false,
    .group 1 (.rep dCls 1 (some 3) false)]

/-- `/\b(authentic|genuine|real|verified|legitimate)\b/i` -/
def authPosRe : Regex :=
  .cat .wordB (.cat
    (altList [litCI "authentic", litCI "genuine", litCI "real", litCI "verified",
      litCI "legitimate"]) .wordB)

/-- `/\b(not authentic|not genuine|fake|counterfeit|replica|reproduction)\b/i` -/
def authNegRe : Regex :=
  .cat .wordB (.cat
    (altList [litCI "not authentic", litCI "not genuine", litCI "fake",
      litCI "counterfeit", litCI "replica", litCI "reproduction"]) .wordB)

/-- `/brand[:\s]*([A-Za-z\s&]+?)(?:\n|,|\.|;)/i` -/
def brandRe : Regex :=
  catList [litCI "brand", .rep colonSpaceCls 0 none false,
    .group 1 (.rep brandCls 1 none true),
    altList [exactClass '\n', exactClass ',', exactClass '.', exactClass ';']]

/-- `/(?:era|period|decade|year)[:\s]*([0-9]{4}s?(?:\s*[-–]\s*[0-9]{4}s?)?)/i` -/
def eraRe1 : Regex :=
  catList [altList [litCI "era", litCI "period", litCI "decade", litCI "year"],
    .rep colonSpaceCls 0 none false,
    .group 1 (catList [yyyy, sOpt,
      .rep (catList [.rep sCls 0 none false, dashCls, .rep sCls 0 none false, yyyy, sOpt])
        0 (some 1) false])]

/-- `/((?:early|mid|late)\s+[0-9]{4}s)/i` -/
def eraRe2 : Regex :=
  .group 1 (catList [altList [litCI "early", litCI "mid", litCI "late"],
    .rep sCls 1 none false, yyyy, ciClass 's'])

/-- `/([0-9]{4})\s*[-–]\s*([0-9]{4})/i` -/
def eraRe3 : Regex :=
  catList [.group 1 yyyy, .rep sCls 0 none false, dashCls,
    .rep sCls 0 none false, .group 2 yyyy]

/-- `/(\d{4})\s*[-–]\s*(\d{4})/` -/
def yearRe : Regex :=
  catList [.group 1 (.rep dCls 4 (some 4) false), .rep sCls 0 none false, dashCls,
    .rep sCls 0 none false, .group 2 (.rep dCls 4 (some 4) false)]

/-- `/red flag[s]?[:\s]*([^]*?)(?:\n\n|$)/i` -/
def redFlagSectionRe : Regex :=
  catList [litCI "red flag", sOpt, .rep colonSpaceCls 0 none false,
    .group 1 (.rep anyCls 0 none true),
    .alt (catList [exactClass '\n', exactClass '\n']) .eos]

/-- `/(?:verified|authentication)\s*markers?[:\s]*([^]*?)(?:\n\n|$)/i` -/
def markerSectionRe : Regex :=
  catList [altList [litCI "verified", litCI "authentication"], .rep sCls 0 none false,
    litCI "marker", sOpt, .rep colonSpaceCls 0 none false,
    .group 1 (.rep anyCls 0 none true),
    .alt (catList [exactClass '\n', exactClass '\n']) .eos]

/-- `/[-•*]\s*(.+)/g` -/
def bulletRe : Regex :=
  catList [bulletCls, .rep sCls 0 none false, .group 1 (.rep dotCls 1 none false)]

/-- `\d+(?:,\d{3})*` -/
def numGrp : Regex :=
  .cat (.rep dCls 1 none false)
    (.rep (catList [exactClass ',', .rep dCls 3 (some 3) false]) 0 none false)

/-- `/\$(\d+(?:,\d{3})*)\s*[-–]\s*\$(\d+(?:,\d{3})*)/` -/
def valueRe : Regex :=
  catList [exactClass '$', .group 1 numGrp, .rep sCls 0 none false, dashCls,
    .rep sCls 0 none false, exactClass '$', .group 2 numGrp]

/-! ### Response parser (parseAuthenticationResponse) -/

/-- Map confidence score to level (`getConfidenceLevel`). -/
def getConfidenceLevel (score : ℕ) : ConfidenceLevel :=
  if score ≥ 90 then .very_high
  else if score ≥ 75 then .high
  else if score ≥ 55 then .moderate
  else if score ≥ 35 then .low
  else .uncertain

/-- The `confidenceMatch[1]` digits from the three-pattern `||` chain. -/
def extractConfidenceDigits (t : List Char) : Option (List Char) :=
  match reGroup1 confRe1 t with
  | some d => some d
  | none =>
    match reGroup1 confRe2 t with
    | some d => some d
    | none => reGroup1 confRe3 t

/-- `confidenceMatch ? Math.min(100, parseInt(confidenceMatch[1])) : 50`. -/
def jsParsedConfidence (t : List Char) : ℕ :=
  match extractConfidenceDigits t with
  | some d => min 100 (parseDigits d)
  | none => 50

def jsIsAuthentic (t : List Char) : Bool :=
  (reSearch authPosRe t).isSome && !(reSearch authNegRe t).isSome

/-- `brandMatch?.[1]?.trim() || 'Unknown'`. -/
def jsParsedBrand (t : List Char) : String :=
  match reGroup1 brandRe t with
  | some g => jsOrString (String.mk (jsTrimChars g)) "Unknown"
  | none => "Unknown"

/-- `eraMatch?.[0]?.replace(/^[:\s]+/, '') || 'Unknown era'`. -/
def jsParsedEra (t : List Char) : String :=
  let m :=
    match reFull eraRe1 t with
    | some m => some m
    | none =>
      match reFull eraRe2 t with
      | some m => some m
      | none => reFull eraRe3 t
  match m with
  | some m =>
    jsOrString (String.mk (m.dropWhile (fun c => c == ':' || jsWhitespace c))) "Unknown era"
  | none => "Unknown era"

/-- `yearMatch ? [parseInt(..1), parseInt(..2)] : [1970, 2000]`. -/
def jsParsedYearRange (t : List Char) : ℤ × ℤ :=
  match reSearch yearRe t with
  | some (_, _, caps) =>
    (match capGet caps t 1, capGet caps t 2 with
     | some a, some b => ((parseDigits a : ℤ), (parseDigits b : ℤ))
     | _, _ => (1970, 2000))
  | none => (1970, 2000)

/-- `f.replace(/^[-•*]\s*/, '')`. -/
def stripBullet (l : List Char) : List Char :=
  match l with
  | [] => []
  | c :: t => if c == '-' || c == '•' || c == '*' then t.dropWhile jsWhitespace else l

/-- Bullet-prefixed entries of a section (`section.match(/[-•*]\s*(.+)/g)`,
each stripped of its bullet prefix). -/
def extractBullets (sect : List Char) : List String :=
  (reMatchesG bulletRe sect).map
    (fun m => String.mk (stripBullet ((sect.drop m.1).take (m.2.1 - m.1))))

def jsParsedRedFlags (t : List Char) : List String :=
  match reGroup1 redFlagSectionRe t with
  | some sect => extractBullets sect
  | none => []

def jsParsedVerifiedMarkers (t : List Char) : List String :=
  match reGroup1 markerSectionRe t with
  | some sect => extractBullets sect
  | none => []

/-- `$low – $high` extraction; `(0, 0)` when absent. -/
def jsParsedValues (t : List Char) : ℤ × ℤ :=
  match reSearch valueRe t with
  | some (_, _, caps) =>
    (match capGet caps t 1, capGet caps t 2 with
     | some a, some b =>
       ((parseDigits (a.filter (fun c => !(c == ','))) : ℤ),
        (parseDigits (b.filter (fun c => !(c == ','))) : ℤ))
     | _, _ => (0, 0))
  | none => (0, 0)

/-- `parseAuthenticationResponse(text, startTime)`; `now` models the value of
`Date.now()` at result construction. -/
def parseAuthenticationResponse (text : String) (startTime now : ℤ) :
    AuthenticationResult :=
  let t := text.data
  let confidence := jsParsedConfidence t
  let brand := jsParsedBrand t
  let era := jsParsedEra t
  let yearRange := jsParsedYearRange t
  let redFlags := jsParsedRedFlags t
  let verifiedMarkers := jsParsedVerifiedMarkers t
  let vals := jsParsedValues t
  { isAuthentic := jsIsAuthentic t
    confidence := confidence
    confidenceLevel := getConfidenceLevel confidence
    category := "unknown"
    brandEra :=
      { brand := brand, era := era, yearRange := yearRange,
        confidence := (confidence : ℚ) / 100, markers := verifiedMarkers.take 5 }
    rnLookup := none
    brandPattern :=
      { brand := brand, era := era, authenticityScore := (confidence : ℤ),
        matchedPatterns := verifiedMarkers, redFlags := redFlags,
        details := String.mk (t.take 500) }
    dateForensics :=
      { estimatedEra := era, yearRange := yearRange,
        confidence := (confidence : ℚ) / 100, evidence := verifiedMarkers,
        constructionDetails := [], materialAnalysis := "" }
    marketData :=
      { estimatedValue :=
          { low := vals.1, mid := jsRound (((vals.1 : ℚ) + (vals.2 : ℚ)) / 2),
            high := vals.2, currency := "USD" }
        comparableSales := []
        marketTrend := .stable
        demandLevel := if confidence > 75 then .high else .moderate }
    reasoning := text
    redFlags := redFlags
    verifiedMarkers := verifiedMarkers
    thinkingOutput := text
    timestamp := now
    processingTime := now - startTime }

/-! ### Authentication orchestrator (authenticateItem) -/

structure ToolCallReq where
  name : String
  args : ToolArgs
  deriving DecidableEq

/-- One model response: the requested tool calls (`functionCalls()`, the empty
list modelling a falsy result) and the response text (`text()`). -/
structure ModelResponse where
  calls : List ToolCallReq
  text : String
  deriving DecidableEq

def maxToolCalls : ℕ := 8

/-- The tool-call `while` loop. `i` is `toolCallCount`, the fuel is
`maxToolCalls - i`; returns the final `toolCallCount`. -/
def toolLoopFrom (beh : ℕ → ModelResponse) : ℕ → ℕ → ℕ
  | 0, i => i
  | fuel + 1, i => if (beh i).calls.isEmpty then i else toolLoopFrom beh fuel (i + 1)

/-- Number of rounds the loop executes; the loop finishes holding response
`beh (toolLoopCount beh)`. -/
def toolLoopCount (beh : ℕ → ModelResponse) : ℕ := toolLoopFrom beh maxToolCalls 0

/-- The tool calls executed during the loop: all calls of every round the
loop body ran on. -/
def executedToolCalls (beh : ℕ → ModelResponse) : List ToolCallReq :=
  (List.range (toolLoopCount beh)).flatMap (fun i => (beh i).calls)

structure GeminiConfig where
  apiKey : String
  model : String
  thinkingLevel : String
  mediaResolution : String
  maxRetries : ℕ
  selfCorrectionThreshold : ℚ
  deriving DecidableEq

/-- A run of the orchestrator, determined by the oracle trace of the hosted
model: `step n` is the model's response to the n-th message of the tool loop
conversation, `correctionText` the text it answers to the self-correction
turn, and the timestamps model the `Date.now()` reads. -/
structure ModelRun where
  step : ℕ → ModelResponse
  correctionText : String
  startTime : ℤ
  parseTime1 : ℤ
  parseTime2 : ℤ

/-- The initial parse (`authResult`), from the final text of the tool loop. -/
def initialCandidate (run : ModelRun) : AuthenticationResult :=
  parseAuthenticationResponse (run.step (toolLoopCount run.step)).text
    run.startTime run.parseTime1

/-- The corrected parse (`correctedResult`) of the self-correction turn. -/
def correctedCandidate (run : ModelRun) : AuthenticationResult :=
  parseAuthenticationResponse run.correctionText run.startTime run.parseTime2

/-- `authenticateItem`: missing credential fails fast; otherwise the tool
loop runs, the final text is parsed, and if confidence is below
`selfCorrectionThreshold × 100` one corrective turn runs, its result adopted
only when its confidence is strictly greater. -/
def authenticateItem (config : GeminiConfig) (run : ModelRun) :
    Except String AuthenticationResult :=
  if config.apiKey = "" then
    .error "VITE_GEMINI_API_KEY is required. Get one at https://ai.google.dev/gemini-api/docs/api-key"
  else
    let authResult := initialCandidate run
    if (authResult.confidence : ℚ) < config.selfCorrectionThreshold * 100 then
      let correctedResult := correctedCandidate run
      if correctedResult.confidence > authResult.confidence then .ok correctedResult
      else .ok authResult
    else .ok authResult

/-! ### Concrete runs used to instantiate theorems -/

deriving instance DecidableEq for Except

def demoConfig : GeminiConfig :=
  { apiKey := "key", model := "gemini-2.0-flash", thinkingLevel := "high",
    mediaResolution := "high", maxRetries := 2, selfCorrectionThreshold := 7/10 }

/-- A run whose initial synthesis scores 60% (below the 70% threshold) and
whose corrective turn scores 80%. -/
def lowConfRun : ModelRun :=
  { step := fun _ => ⟨[], "score: 60"⟩, correctionText := "score: 80",
    startTime := 0, parseTime1 := 3, parseTime2 := 5 }

/-- A run whose first round requests one successful `rn_lookup` call and
whose final synthesis scores 90%. -/
def rnCallRun : ModelRun :=
  { step := fun n =>
      if n = 0 then ⟨[⟨"rn_lookup", [("rn_number", "RN 16305")]⟩], ""⟩
      else ⟨[], "confidence: 90%"⟩,
    correctionText := "unused", startTime := 0, parseTime1 := 7, parseTime2 := 9 }

/-! ### Helper lemmas -/

theorem jsRound_intCast (z : ℤ) : jsRound (z : ℚ) = z := by
  unfold jsRound
  rw [add_comm, Int.floor_add_int]
  norm_num

theorem jsParsedConfidence_le (t : List Char) : jsParsedConfidence t ≤ 100 := by
  unfold jsParsedConfidence
  cases h : extractConfidenceDigits t
  · simp
  · simp

theorem jsParsedConfidence_elim (t : List Char) :
    jsParsedConfidence t =
      (extractConfidenceDigits t).elim 50 (fun d => min 100 (parseDigits d)) := by
  unfold jsParsedConfidence
  cases extractConfidenceDigits t <;> rfl

theorem getConfidenceLevel_very_high (n : ℕ) :
    getConfidenceLevel n = .very_high ↔ 90 ≤ n := by
  unfold getConfidenceLevel
  split_ifs <;> simp_all

theorem getConfidenceLevel_high (n : ℕ) :
    getConfidenceLevel n = .high ↔ 75 ≤ n ∧ n < 90 := by
  unfold getConfidenceLevel
  split_ifs <;> simp_all

theorem getConfidenceLevel_moderate (n : ℕ) :
    getConfidenceLevel n = .moderate ↔ 55 ≤ n ∧ n < 75 := by
  unfold getConfidenceLevel
  split_ifs <;> simp_all
  omega

theorem getConfidenceLevel_low (n : ℕ) :
    getConfidenceLevel n = .low ↔ 35 ≤ n ∧ n < 55 := by
  unfold getConfidenceLevel
  split_ifs <;> simp_all <;> omega

theorem getConfidenceLevel_uncertain (n : ℕ) :
    getConfidenceLevel n = .uncertain ↔ n < 35 := by
  unfold getConfidenceLevel
  split_ifs <;> simp_all <;> omega

theorem clampRound_formula (m r t : ℕ) (ht : t = 4 ∨ t = 5) :
    ((max 0 (min 100 (jsRound (((m : ℚ) / (t : ℚ)) * 100 - (r : ℚ) * 15))) : ℤ) : ℚ) =
      max 0 (min 100 ((100 * (m : ℚ)) / (t : ℚ) - 15 * (r : ℚ))) := by
  have cast_clamp (z : ℤ) :
      ((max 0 (min 100 z) : ℤ) : ℚ) = max 0 (min 100 (z : ℚ)) := by
    push_cast [Int.cast_max, Int.cast_min]
    norm_num
  rcases ht with rfl | rfl
  · have h1 : ((m : ℚ) / (4 : ℕ)) * 100 - (r : ℚ) * 15 =
        ((25 * (m : ℤ) - 15 * (r : ℤ) : ℤ) : ℚ) := by push_cast; ring
    have h2 : (100 * (m : ℚ)) / ((4 : ℕ) : ℚ) - 15 * (r : ℚ) =
        ((25 * (m : ℤ) - 15 * (r : ℤ) : ℤ) : ℚ) := by push_cast; ring
    rw [h1, h2, jsRound_intCast, cast_clamp]
  · have h1 : ((m : ℚ) / (5 : ℕ)) * 100 - (r : ℚ) * 15 =
        ((20 * (m : ℤ) - 15 * (r : ℤ) : ℤ) : ℚ) := by push_cast; ring
    have h2 : (100 * (m : ℚ)) / ((5 : ℕ) : ℚ) - 15 * (r : ℚ) =
        ((20 * (m : ℤ) - 15 * (r : ℤ) : ℤ) : ℚ) := by push_cast; ring
    rw [h1, h2, jsRound_intCast, cast_clamp]

theorem bpLookup_mem (k : String) (bd : BrandDB) (h : bpLookup k = some bd) :
    bd = nikePatternDB ∨ bd = levisPatternDB ∨ bd = ralphLaurenPatternDB := by
  unfold bpLookup at h
  obtain ⟨p, hfind, hp⟩ := Option.map_eq_some'.mp h
  have hmem := List.mem_of_find?_eq_some hfind
  simp only [BRAND_PATTERNS, List.mem_cons, List.not_mem_nil, or_false] at hmem
  rcases hmem with rfl | rfl | rfl
  · exact Or.inl hp.symm
  · exact Or.inr (Or.inl hp.symm)
  · exact Or.inr (Or.inr hp.symm)

theorem bpEraKey_mem (bd : BrandDB) (era : String) (hne : bd.eras ≠ []) :
    bpEraKey bd era ∈ bd.eras.map (·.1) := by
  unfold bpEraKey
  cases hf : (bd.eras.map (·.1)).find?
      (fun k => containsSub era.data (removeFirstChar 's' k.data)) with
  | some k => exact List.mem_of_find?_eq_some hf
  | none =>
    have hmapne : bd.eras.map (·.1) ≠ [] := by
      simpa using hne
    rw [List.getLast?_eq_getLast _ hmapne]
    simpa using List.getLast_mem hmapne

theorem bpEraData_patterns_len (bd : BrandDB)
    (hbd : bd = nikePatternDB ∨ bd = levisPatternDB ∨ bd = ralphLaurenPatternDB)
    (era : String) :
    (bpEraData bd era).patterns.length = 4 ∨ (bpEraData bd era).patterns.length = 5 := by
  rcases hbd with rfl | rfl | rfl
  · have hk := bpEraKey_mem nikePatternDB era (by decide)
    have hlist : nikePatternDB.eras.map (·.1) = ["1970s", "1980s", "1990s", "2000s"] := rfl
    rw [hlist] at hk
    simp only [List.mem_cons, List.not_mem_nil, or_false] at hk
    unfold bpEraData
    rcases hk with h | h | h | h <;> simp only [h] <;> decide
  · have hk := bpEraKey_mem levisPatternDB era (by decide)
    have hlist : levisPatternDB.eras.map (·.1) = ["1960s", "1970s", "1980s", "1990s"] := rfl
    rw [hlist] at hk
    simp only [List.mem_cons, List.not_mem_nil, or_false] at hk
    unfold bpEraData
    rcases hk with h | h | h | h <;> simp only [h] <;> decide
  · have hk := bpEraKey_mem ralphLaurenPatternDB era (by decide)
    have hlist : ralphLaurenPatternDB.eras.map (·.1) = ["1980s", "1990s"] := rfl
    rw [hlist] at hk
    simp only [List.mem_cons, List.not_mem_nil, or_false] at hk
    unfold bpEraData
    rcases hk with h | h <;> simp only [h] <;> decide

theorem toolLoopFrom_le (beh : ℕ → ModelResponse) (fuel : ℕ) :
    ∀ i, toolLoopFrom beh fuel i ≤ i + fuel := by
  induction fuel with
  | zero => intro i; simp [toolLoopFrom]
  | succ n ih =>
    intro i
    unfold toolLoopFrom
    split
    · omega
    · have := ih (i + 1); omega

theorem toolLoopFrom_all (beh : ℕ → ModelResponse) (h : ∀ n, (beh n).calls ≠ [])
    (fuel : ℕ) : ∀ i, toolLoopFrom beh fuel i = i + fuel := by
  induction fuel with
  | zero => intro i; simp [toolLoopFrom]
  | succ n ih =>
    intro i
    have hne : (beh i).calls.isEmpty = false := by
      cases hc : (beh i).calls
      · exact absurd hc (h i)
      · rfl
    unfold toolLoopFrom
    rw [hne]
    have := ih (i + 1)
    simp only [Bool.false_eq_true, if_false]
    omega

/-! ### The claims -/

/-- C1: Self-correction monotonicity. For every run of `authenticateItem`
that returns a result, the returned confidence is at least the initial
parse's confidence; when the self-correction turn runs, the corrected
candidate is adopted exactly when its confidence is strictly greater than
the initial one, and on a tie or any non-improvement (and when no correction
runs) the initial result is returned. -/
theorem authenticateItem_self_correction (config : GeminiConfig) (run : ModelRun)
    (r : AuthenticationResult) (h : authenticateItem config run = Except.ok r) :
    (initialCandidate run).confidence ≤ r.confidence ∧
    r = (if ((initialCandidate run).confidence : ℚ) < config.selfCorrectionThreshold * 100 then
           (if (initialCandidate run).confidence < (correctedCandidate run).confidence
             then correctedCandidate run else initialCandidate run)
         else initialCandidate run) := by
  unfold authenticateItem at h
  by_cases hk : config.apiKey = ""
  · rw [if_pos hk] at h
    exact absurd h (by simp)
  · rw [if_neg hk] at h
    dsimp only at h
    split_ifs at h ⊢ with h1 h2
    · simp only [Except.ok.injEq] at h
      subst h
      exact ⟨Nat.le_of_lt h2, rfl⟩
    · simp only [Except.ok.injEq] at h
      subst h
      exact ⟨le_refl _, rfl⟩
    · simp only [Except.ok.injEq] at h
      subst h
      exact ⟨le_refl _, rfl⟩

/-- C1 witness: a concrete run (initial 60%, threshold 70%, corrected 80%)
on which the theorem applies with its hypothesis discharged by computation. -/
theorem authenticateItem_self_correction_witness :
    (initialCandidate lowConfRun).confidence ≤ (correctedCandidate lowConfRun).confidence := by
  have h : authenticateItem demoConfig lowConfRun = Except.ok (correctedCandidate lowConfRun) := by
    with_unfolding_all rfl
  exact (authenticateItem_self_correction demoConfig lowConfRun (correctedCandidate lowConfRun) h).1

/-- C2: AuthenticationResult confidence invariant. For every input text and
timestamps, the parsed confidence is at most 100 (and, being a natural
number, at least 0); it equals `min 100` of the extracted digits when a
confidence pattern matches and 50 otherwise; `confidenceLevel` always equals
`getConfidenceLevel confidence`, whose buckets are exactly the documented
thresholds; and the literal text "confidence: 150%" clamps to 100 while a
text with no matching pattern defaults to 50. -/
theorem parse_confidence_invariant (text : String) (startTime now : ℤ) :
    (parseAuthenticationResponse text startTime now).confidence ≤ 100 ∧
    (parseAuthenticationResponse text startTime now).confidence =
      (extractConfidenceDigits text.data).elim 50 (fun d => min 100 (parseDigits d)) ∧
    (parseAuthenticationResponse text startTime now).confidenceLevel =
      getConfidenceLevel (parseAuthenticationResponse text startTime now).confidence ∧
    ((parseAuthenticationResponse text startTime now).confidenceLevel = .very_high ↔
      90 ≤ (parseAuthenticationResponse text startTime now).confidence) ∧
    ((parseAuthenticationResponse text startTime now).confidenceLevel = .high ↔
      75 ≤ (parseAuthenticationResponse text startTime now).confidence ∧
        (parseAuthenticationResponse text startTime now).confidence < 90) ∧
    ((parseAuthenticationResponse text startTime now).confidenceLevel = .moderate ↔
      55 ≤ (parseAuthenticationResponse text startTime now).confidence ∧
        (parseAuthenticationResponse text startTime now).confidence < 75) ∧
    ((parseAuthenticationResponse text startTime now).confidenceLevel = .low ↔
      35 ≤ (parseAuthenticationResponse text startTime now).confidence ∧
        (parseAuthenticationResponse text startTime now).confidence < 55) ∧
    ((parseAuthenticationResponse text startTime now).confidenceLevel = .uncertain ↔
      (parseAuthenticationResponse text startTime now).confidence < 35) ∧
    (parseAuthenticationResponse "confidence: 150%" 0 0).confidence = 100 ∧
    (parseAuthenticationResponse "No numeric assessment was possible." 0 0).confidence = 50 := by
  have hc : (parseAuthenticationResponse text startTime now).confidence =
      jsParsedConfidence text.data := rfl
  have hl : (parseAuthenticationResponse text startTime now).confidenceLevel =
      getConfidenceLevel (jsParsedConfidence text.data) := rfl
  refine ⟨?_, ?_, ?_, ?_, ?_, ?_, ?_, ?_, by decide, by decide⟩
  · rw [hc]; exact jsParsedConfidence_le _
  · rw [hc]; exact jsParsedConfidence_elim _
  · rw [hc, hl]
  · rw [hc, hl]; exact getConfidenceLevel_very_high _
  · rw [hc, hl]; exact getConfidenceLevel_high _
  · rw [hc, hl]; exact getConfidenceLevel_moderate _
  · rw [hc, hl]; exact getConfidenceLevel_low _
  · rw [hc, hl]; exact getConfidenceLevel_uncertain _

/-- C3: Round ceiling. The tool-call loop executes at most 8 rounds; under a
model that requests tool calls on every turn it executes exactly 8 rounds;
and (whenever the credential is present) the orchestrator still returns a
result — no error — parsed from the available text: the initial candidate
(built from the final text the loop holds) or the corrected one. -/
theorem toolLoop_round_ceiling (config : GeminiConfig) (run : ModelRun) :
    toolLoopCount run.step ≤ 8 ∧
    ((∀ n, (run.step n).calls ≠ []) → toolLoopCount run.step = 8) ∧
    (config.apiKey = "" ∨ ∃ r, authenticateItem config run = Except.ok r ∧
      (r = initialCandidate run ∨ r = correctedCandidate run)) := by
  refine ⟨?_, ?_, ?_⟩
  · have := toolLoopFrom_le run.step 8 0
    simpa [toolLoopCount, maxToolCalls] using this
  · intro h
    have := toolLoopFrom_all run.step h 8 0
    simpa [toolLoopCount, maxToolCalls] using this
  · by_cases hk : config.apiKey = ""
    · exact Or.inl hk
    · refine Or.inr ?_
      unfold authenticateItem
      rw [if_neg hk]
      dsimp only
      split_ifs
      · exact ⟨_, rfl, Or.inr rfl⟩
      · exact ⟨_, rfl, Or.inl rfl⟩
      · exact ⟨_, rfl, Or.inl rfl⟩

/-- C4 counterexample: two executions of `executeToolCall` with the same
name (`market_search`) and the same argument map disagree once the two runs
draw different `Math.random()` values: the comparable-sale prices differ. -/
theorem executeToolCall_market_random_cex :
    executeToolCall "market_search" [("item_description", "jacket")] (fun _ => 0) ≠
      executeToolCall "market_search" [("item_description", "jacket")] (fun _ => (1 : ℚ)/2) := by
  with_unfolding_all decide

/-- C4 (amended): `rn_lookup`, `brand_patterns` and `date_forensics` are
deterministic functions of the argument map (independent of the random
stream); `market_search` is deterministic in its estimated-value band,
market trend, demand level and the non-price fields of its comparable sales,
but each comparable-sale price incorporates a fresh random draw. -/
theorem forensic_tools_determinism (args : ToolArgs) (rng1 rng2 : ℕ → ℚ) :
    executeToolCall "rn_lookup" args rng1 = executeToolCall "rn_lookup" args rng2 ∧
    executeToolCall "brand_patterns" args rng1 = executeToolCall "brand_patterns" args rng2 ∧
    executeToolCall "date_forensics" args rng1 = executeToolCall "date_forensics" args rng2 ∧
    (marketSearch args rng1).estimatedValue = (marketSearch args rng2).estimatedValue ∧
    (marketSearch args rng1).marketTrend = (marketSearch args rng2).marketTrend ∧
    (marketSearch args rng1).demandLevel = (marketSearch args rng2).demandLevel ∧
    (marketSearch args rng1).comparableSales.map
        (fun c => (c.title, c.platform, c.date, c.condition)) =
      (marketSearch args rng2).comparableSales.map
        (fun c => (c.title, c.platform, c.date, c.condition)) :=
  ⟨rfl, rfl, rfl, rfl, rfl, rfl, rfl⟩

/-- C5 counterexample: a concrete run in which `rn_lookup` executed (it is
among the executed calls and succeeds, status active, formula year 1960),
yet the returned report's `rnLookup` field is `none`, not the lookup
result. -/
theorem toolResult_retention_cex :
    (executedToolCalls rnCallRun.step).map (fun c => c.name) = ["rn_lookup"] ∧
    (∃ res, executeToolCall "rn_lookup" [("rn_number", "RN 16305")] (fun _ => 0) =
        Except.ok (ToolResult.rn res) ∧ res.status = RNStatus.active ∧
        res.calculatedYear = some 1960) ∧
    authenticateItem demoConfig rnCallRun =
      Except.ok (parseAuthenticationResponse "confidence: 90%" 0 7) ∧
    (parseAuthenticationResponse "confidence: 90%" 0 7).rnLookup = none := by
  refine ⟨by decide, ⟨rnLookup [("rn_number", "RN 16305")], rfl,
    by with_unfolding_all rfl, by with_unfolding_all rfl⟩, ?_, rfl⟩
  with_unfolding_all rfl

/-- C5 (amended): tool results are fed back to the model only; the final
structured report is rebuilt from the final text by the parser, so its
`rnLookup` field is `none` on every run that returns a result, even when
`rn_lookup` executed successfully. -/
theorem authenticateItem_rnLookup_none (config : GeminiConfig) (run : ModelRun)
    (r : AuthenticationResult) (h : authenticateItem config run = Except.ok r) :
    r.rnLookup = none := by
  unfold authenticateItem at h
  by_cases hk : config.apiKey = ""
  · rw [if_pos hk] at h
    exact absurd h (by simp)
  · rw [if_neg hk] at h
    dsimp only at h
    split_ifs at h <;> (simp only [Except.ok.injEq] at h; subst h; rfl)

/-- C5 witness: the amended theorem applied to the concrete run whose first
round executes `rn_lookup` successfully. -/
theorem authenticateItem_rnLookup_none_witness :
    (initialCandidate rnCallRun).rnLookup = none := by
  have h : authenticateItem demoConfig rnCallRun = Except.ok (initialCandidate rnCallRun) := by
    with_unfolding_all rfl
  exact authenticateItem_rnLookup_none demoConfig rnCallRun (initialCandidate rnCallRun) h

/-- C6: Construction-dating algorithm. With no matched marker the result is
the default range [1960, 2020] at confidence 0.3; otherwise the confidence
is min(0.95, mean marker confidence + 0.05 × number of matched markers) and
the year range is the intersection of the matched ranges (max of starts, min
of ends) when that intersection satisfies start ≤ end, else the rounded
confidence-weighted average of starts and ends. Concrete checks: "selvedge,
chain stitch" intersects to (1950, 1985) at 0.925, and an unmatched input
yields (1960, 2020) at 0.3. -/
theorem dateForensics_range_confidence (args : ToolArgs) :
    (dateForensics args).confidence =
      (if matchedConstructionMarkers args = [] then 3/10
       else min (95/100 : ℚ)
         (((matchedConstructionMarkers args).map (fun m => m.confidence)).sum /
            ((matchedConstructionMarkers args).length : ℚ) +
          ((matchedConstructionMarkers args).length : ℚ) * (5/100))) ∧
    (dateForensics args).yearRange =
      (if matchedConstructionMarkers args = [] then ((1960 : ℤ), (2020 : ℤ))
       else if intListMax ((matchedConstructionMarkers args).map (fun m => m.eraRange.1)) ≤
           intListMin ((matchedConstructionMarkers args).map (fun m => m.eraRange.2)) then
         (intListMax ((matchedConstructionMarkers args).map (fun m => m.eraRange.1)),
          intListMin ((matchedConstructionMarkers args).map (fun m => m.eraRange.2)))
       else
         (jsRound (((matchedConstructionMarkers args).map
              (fun m => (m.eraRange.1 : ℚ) * m.confidence)).sum /
            ((matchedConstructionMarkers args).map (fun m => m.confidence)).sum),
          jsRound (((matchedConstructionMarkers args).map
              (fun m => (m.eraRange.2 : ℚ) * m.confidence)).sum /
            ((matchedConstructionMarkers args).map (fun m => m.confidence)).sum))) ∧
    (dateForensics [("category", "jacket"), ("construction_details", "selvedge, chain stitch"),
        ("materials", "")]).yearRange = ((1950 : ℤ), (1985 : ℤ)) ∧
    (dateForensics [("category", "jacket"), ("construction_details", "selvedge, chain stitch"),
        ("materials", "")]).confidence = 37/40 ∧
    (dateForensics [("category", "jacket"), ("construction_details", "plain"),
        ("materials", "")]).yearRange = ((1960 : ℤ), (2020 : ℤ)) ∧
    (dateForensics [("category", "jacket"), ("construction_details", "plain"),
        ("materials", "")]).confidence = 3/10 := by
  refine ⟨?_, ?_, by with_unfolding_all rfl, by with_unfolding_all rfl,
    by with_unfolding_all rfl, by with_unfolding_all rfl⟩
  · by_cases h : matchedConstructionMarkers args = []
    · rw [if_pos h]
      unfold dateForensics
      dsimp only
      rw [if_pos (show (matchedConstructionMarkers args).isEmpty = true by simp [h])]
    · rw [if_neg h]
      unfold dateForensics
      dsimp only
      have hb : (matchedConstructionMarkers args).isEmpty = false := by
        cases hc : matchedConstructionMarkers args
        · exact absurd hc h
        · rfl
      rw [if_neg (show ¬(matchedConstructionMarkers args).isEmpty = true by simp [hb])]
  · by_cases h : matchedConstructionMarkers args = []
    · rw [if_pos h]
      unfold dateForensics
      dsimp only
      rw [if_pos (show (matchedConstructionMarkers args).isEmpty = true by simp [h])]
    · rw [if_neg h]
      unfold dateForensics
      dsimp only
      have hb : (matchedConstructionMarkers args).isEmpty = false := by
        cases hc : matchedConstructionMarkers args
        · exact absurd hc h
        · rfl
      rw [if_neg (show ¬(matchedConstructionMarkers args).isEmpty = true by simp [hb])]
      split_ifs <;> rfl

/-- C7: Brand-pattern scoring. For every brand found in the static table the
authenticity score equals 100 × (matched patterns / total expected patterns)
− 15 × (matched red flags), clamped to [0, 100] (exactly: every era entry
has 4 or 5 expected patterns, so the rounded score is the exact rational
value); for a brand not in the table — concretely "Acme Vintage Co" — the
score is exactly 50 with exactly one red flag and zero matched patterns. -/
theorem brandPatterns_score_spec (args : ToolArgs) :
    (match bpLookup (bpNormalizeBrand args) with
     | none =>
       (brandPatterns args).authenticityScore = 50 ∧
       (brandPatterns args).redFlags =
         ["Brand not in database - manual verification required"] ∧
       (brandPatterns args).matchedPatterns = []
     | some bd =>
       ((brandPatterns args).authenticityScore : ℚ) =
         max 0 (min 100 (
           (100 * ((bpMatchesOf (bpEraData bd (jsTrimStr (argOrEmpty args "era"))).patterns
               (bpObservedMarkers args)).length : ℚ)) /
             ((bpEraData bd (jsTrimStr (argOrEmpty args "era"))).patterns.length : ℚ) -
           15 * ((bpMatchesOf (bpEraData bd (jsTrimStr (argOrEmpty args "era"))).redFlags
               (bpObservedMarkers args)).length : ℚ)))) ∧
    (brandPatterns [("brand", "Acme Vintage Co"), ("era", "1980s")]).authenticityScore = 50 ∧
    (brandPatterns [("brand", "Acme Vintage Co"), ("era", "1980s")]).redFlags.length = 1 ∧
    (brandPatterns [("brand", "Acme Vintage Co"), ("era", "1980s")]).matchedPatterns = [] := by
  refine ⟨?_, by decide, by decide, by decide⟩
  cases hbd : bpLookup (bpNormalizeBrand args) with
  | none =>
    simp [brandPatterns, hbd]
  | some bd =>
    have ht := bpEraData_patterns_len bd (bpLookup_mem _ bd hbd)
      (jsTrimStr (argOrEmpty args "era"))
    have htpos : 0 < (bpEraData bd (jsTrimStr (argOrEmpty args "era"))).patterns.length := by
      rcases ht with h | h <;> omega
    simp only [brandPatterns, hbd]
    rw [if_pos htpos]
    exact clampRound_formula _ _ _ ht

/-- C8: Registration-number lookup. Non-digits are stripped and the rest
parsed; an empty digit string is a not-found result with no numeric fields
rather than an error; otherwise the formula year is
round((n − 13670) / 2635 + 1959), and `none` below 13670. Concretely,
"13670" gives 1959, "16305" gives 1960 and "13669" gives `none`. -/
theorem rnLookup_formula_spec (args : ToolArgs) :
    (if (digitsOf (argOrEmpty args "rn_number").data).isEmpty then
       (rnLookup args).status = RNStatus.not_found ∧
       (rnLookup args).registrationYear = none ∧
       (rnLookup args).calculatedYear = none ∧
       (rnLookup args).companyName = "Invalid RN number"
     else
       (rnLookup args).calculatedYear =
         (if parseDigits (digitsOf (argOrEmpty args "rn_number").data) < 13670 then none
          else some (jsRound
            (((parseDigits (digitsOf (argOrEmpty args "rn_number").data) : ℚ) - 13670)
              / 2635 + 1959)))) ∧
    (rnLookup [("rn_number", "13670")]).calculatedYear = some 1959 ∧
    (rnLookup [("rn_number", "16305")]).calculatedYear = some 1960 ∧
    (rnLookup [("rn_number", "13669")]).calculatedYear = none := by
  refine ⟨?_, by with_unfolding_all rfl, by with_unfolding_all rfl, by with_unfolding_all rfl⟩
  by_cases h : (digitsOf (argOrEmpty args "rn_number").data).isEmpty
  · rw [if_pos h]
    unfold rnLookup jsParseIntOpt
    dsimp only
    rw [h]
    exact ⟨rfl, rfl, rfl, rfl⟩
  · rw [if_neg h]
    unfold rnLookup jsParseIntOpt
    dsimp only
    rw [Bool.not_eq_true] at h
    rw [h]
    rfl

/-- C9: Market-band computation. The per-brand base band (default for
unknown brands) is scaled by 1.8 when the era mentions "1970" or "1980",
1.4 for "1990", 0.8 for "2000" and 1.0 otherwise, with
mid = round((low + high) / 2); concretely levis × "circa 1980s" gives
low = 108, mid = 774, high = 1440. -/
theorem marketSearch_band_spec (args : ToolArgs) (rng : ℕ → ℚ) :
    (marketSearch args rng).estimatedValue.low =
      jsRound (((msBaseBand (strLower (argOrEmpty args "brand"))).low : ℚ) *
        (if containsSub (argOrEmpty args "era").data "1970".data ||
             containsSub (argOrEmpty args "era").data "1980".data then 9/5
         else if containsSub (argOrEmpty args "era").data "1990".data then 7/5
         else if containsSub (argOrEmpty args "era").data "2000".data then 4/5
         else 1)) ∧
    (marketSearch args rng).estimatedValue.high =
      jsRound (((msBaseBand (strLower (argOrEmpty args "brand"))).high : ℚ) *
        (if containsSub (argOrEmpty args "era").data "1970".data ||
             containsSub (argOrEmpty args "era").data "1980".data then 9/5
         else if containsSub (argOrEmpty args "era").data "1990".data then 7/5
         else if containsSub (argOrEmpty args "era").data "2000".data then 4/5
         else 1)) ∧
    (marketSearch args rng).estimatedValue.mid =
      jsRound ((((marketSearch args rng).estimatedValue.low : ℚ) +
        ((marketSearch args rng).estimatedValue.high : ℚ)) / 2) ∧
    (marketSearch [("item_description", "d"), ("brand", "Levis"), ("era", "circa 1980s")]
        rng).estimatedValue = ⟨108, 774, 1440, "USD"⟩ :=
  ⟨rfl, rfl, rfl, by with_unfolding_all rfl⟩

/-- C10: Implicit matched-pattern fallback. For a brand in the table,
`matchedPatterns` is the full list of the selected era's expected patterns
whenever zero observed markers matched, else the matched list, and it is
never empty; it is empty exactly in the unknown-brand branch. Concretely,
nike/1990s with unrelated markers returns all five expected patterns while
its score is computed from zero matches (score 0). -/
theorem brandPatterns_matched_fallback (args : ToolArgs) :
    (match bpLookup (bpNormalizeBrand args) with
     | none => (brandPatterns args).matchedPatterns = []
     | some bd =>
       (brandPatterns args).matchedPatterns =
         (if (bpMatchesOf (bpEraData bd (jsTrimStr (argOrEmpty args "era"))).patterns
               (bpObservedMarkers args)).length = 0
          then (bpEraData bd (jsTrimStr (argOrEmpty args "era"))).patterns
          else bpMatchesOf (bpEraData bd (jsTrimStr (argOrEmpty args "era"))).patterns
            (bpObservedMarkers args)) ∧
       0 < (brandPatterns args).matchedPatterns.length) ∧
    (brandPatterns [("brand", "nike"), ("era", "1990s"),
        ("markers", "totally unrelated")]).matchedPatterns =
      ["White tag", "White label", "Made in USA possible", "Embroidered swoosh",
        "Mini swoosh"] ∧
    (brandPatterns [("brand", "nike"), ("era", "1990s"),
        ("markers", "totally unrelated")]).authenticityScore = 0 := by
  refine ⟨?_, by decide, by with_unfolding_all rfl⟩
  cases hbd : bpLookup (bpNormalizeBrand args) with
  | none =>
    simp only [brandPatterns, hbd]
  | some bd =>
    have ht := bpEraData_patterns_len bd (bpLookup_mem _ bd hbd)
      (jsTrimStr (argOrEmpty args "era"))
    simp only [brandPatterns, hbd]
    by_cases hm : (bpMatchesOf (bpEraData bd (jsTrimStr (argOrEmpty args "era"))).patterns
        (bpObservedMarkers args)).length = 0
    · rw [if_pos hm, if_neg (by omega)]
      exact ⟨rfl, by rcases ht with h | h <;> omega⟩
    · rw [if_neg hm, if_pos (by omega)]
      exact ⟨rfl, by omega⟩

end GrailScanner
